import Mathlib

/-!
Verification of `src/server.py` (Local Coding AI Server, an HTTP relay in
front of an Ollama inference daemon).  The definitions below are a shallow
embedding of the Python source: pure Lean functions over explicit inputs
standing for the network outcomes the Python code observes.  Line references
are to `src/src/server.py`.
-/

/-- A JSON value, the shape of request bodies and upstream response bodies.
Used to model Python objects produced by `request.json` / `response.json()`. -/
inductive JVal
  | jNull
  | jBool (b : Bool)
  | jNum (n : Int)
  | jStr (s : String)
  | jArr (xs : List JVal)
  | jObj (fields : List (String × JVal))
deriving Repr

/-- A decoded upstream stream object (one line of the newline-delimited JSON
stream of `/api/generate`).  Fields mirror the keys the server reads:
`error`, `response`, `done`, and the four stats counters (`chunk.get(k, 0)`
defaults absent counters to 0, hence `Option Nat`).  `done` models the
truthiness of `chunk.get('done', False)`. -/
structure UpObj where
  error : Option String := none
  response : Option String := none
  done : Bool := false
  total_duration : Option Nat := none
  load_duration : Option Nat := none
  prompt_eval_count : Option Nat := none
  eval_count : Option Nat := none
deriving DecidableEq, Repr

/-- One raw line of the upstream streaming body as `generate_stream` sees it
(lines 85-91): empty (skipped by `if line:`), malformed JSON
(`json.JSONDecodeError` is logged and the loop continues), or a line that
`json.loads` decodes to an object. -/
inductive RawLine
  | blank
  | bad
  | ok (o : UpObj)
deriving Repr

/-- The line-decoding loop of `OllamaClient.generate_stream` (lines 85-91):
skip blank lines, skip malformed lines, yield each decoded object. -/
def decodeLines : List RawLine → List UpObj
  | [] => []
  | .blank :: rest => decodeLines rest
  | .bad :: rest => decodeLines rest
  | .ok o :: rest => o :: decodeLines rest

/-- How the transport underneath `generate_stream` ends, after the listed
lines were received: a normal end of stream, a `ConnectionError`/`Timeout`
(caught at line 93), or another `RequestException` (caught at line 96, e.g.
`raise_for_status` on a non-2xx status, in which case no lines precede it). -/
inductive NetEnd
  | normal
  | connErr
  | reqErr (msg : String)
deriving DecidableEq, Repr

/-- The error dictionaries `generate_stream` yields from its two `except`
clauses (lines 93-98). -/
def netEndEvents : NetEnd → List UpObj
  | .normal => []
  | .connErr => [{ error := some "Connection to Ollama failed. Is Ollama running?" }]
  | .reqErr m => [{ error := some ("Request failed: " ++ m) }]

/-- `OllamaClient.generate_stream` (lines 63-98) as a function from the raw
transport outcome to the sequence of objects it yields: every decodable
non-blank line in order, then the synthesized error object if the transport
failed. -/
def generate_stream (lines : List RawLine) (e : NetEnd) : List UpObj :=
  decodeLines lines ++ netEndEvents e

/-- One outbound SSE chunk of the `/chat` stream, structurally.  `errChunk m`
renders as `data: {"error": m}`, `respChunk t` as `data: {"response": t}`,
`doneChunk` as `data: {"done": true, "stats": ...}` with the four counters,
and `sentinel` as the closing `data: [DONE]` chunk. -/
inductive SSEChunk
  | errChunk (msg : String)
  | respChunk (text : String)
  | doneChunk (total_duration load_duration prompt_eval_count eval_count : Nat)
  | sentinel
deriving DecidableEq, Repr

/-- JSON string quoting as `json.dumps` performs it for the quote and
backslash characters (escapes of control characters are elided; no property
below depends on them). -/
def jsonEsc (s : String) : String :=
  String.join (s.data.map fun c =>
    if c = '\\' then "\\\\" else if c = '"' then "\\\"" else String.singleton c)

/-- A JSON string literal. -/
def jstr (s : String) : String := "\"" ++ jsonEsc s ++ "\""

/-- The wire text of one SSE chunk, exactly as the f-strings of
`chat.generate` (lines 169-190) produce it: `data: <json.dumps(...)>` plus a
blank line.  Key order follows insertion order (`json.dumps` does not sort;
`JSON_SORT_KEYS` is False). -/
def SSEChunk.render : SSEChunk → String
  | .errChunk m => "data: \x7b\"error\": " ++ jstr m ++ "\x7d\n\n"
  | .respChunk t => "data: \x7b\"response\": " ++ jstr t ++ "\x7d\n\n"
  | .doneChunk td ld pec ec =>
      "data: \x7b\"done\": true, \"stats\": \x7b\"total_duration\": " ++ toString td ++
      ", \"load_duration\": " ++ toString ld ++
      ", \"prompt_eval_count\": " ++ toString pec ++
      ", \"eval_count\": " ++ toString ec ++ "\x7d\x7d\n\n"
  | .sentinel => "data: [DONE]\n\n"

/-- The `{'response': ...}` re-framing of lines 174-175: one response chunk
when the object carries a `response` key. -/
def respPart (o : UpObj) : List SSEChunk :=
  match o.response with
  | some t => [.respChunk t]
  | none => []

/-- The `{'done': True, 'stats': ...}` re-framing of lines 177-184: one done
chunk when `chunk.get('done', False)` is truthy, with absent counters
defaulted to 0. -/
def donePart (o : UpObj) : List SSEChunk :=
  if o.done then
    [.doneChunk (o.total_duration.getD 0) (o.load_duration.getD 0)
      (o.prompt_eval_count.getD 0) (o.eval_count.getD 0)]
  else []

/-- How iteration of the upstream event sequence ends from `chat.generate`'s
point of view: normally, or with an exception raised by the iterator after
the listed events (caught by `except Exception` at lines 186-188). -/
inductive IterEnd
  | normal
  | raise (msg : String)
deriving DecidableEq, Repr

/-- The chunk emitted by the `except Exception` handler (line 188): the
exception's message framed as an error chunk; nothing on a normal end. -/
def endPart : IterEnd → List SSEChunk
  | .normal => []
  | .raise m => [.errChunk m]

/-- The `try` body of `chat.generate` (lines 168-188): for each upstream
object in order, an `error` key yields one error chunk and breaks out of the
loop (so neither later events nor a pending exception are reached); otherwise
a `response` key yields a response chunk and a truthy `done` yields a done
chunk; an exception from the iterator is converted to one error chunk. -/
def chatBody : List UpObj → IterEnd → List SSEChunk
  | [], e => endPart e
  | o :: rest, e =>
    match o.error with
    | some m => [.errChunk m]
    | none => respPart o ++ donePart o ++ chatBody rest e

/-- The whole generator `chat.generate` (lines 166-192): the `try` body's
chunks, then the `finally` clause's single `data: [DONE]` sentinel. -/
def chatGenerate (events : List UpObj) (e : IterEnd) : List SSEChunk :=
  chatBody events e ++ [.sentinel]

/-- Module constant `OLLAMA_API_URL` (line 22), also the value the default
parameter of `OllamaClient.__init__` was bound to when the class was defined. -/
def OLLAMA_API_URL : String := "http://localhost:11434"

/-- Module constant `DEFAULT_MODEL` (line 23). -/
def DEFAULT_MODEL : String := "codellama"

/-- `OllamaClient` (lines 39-43): the constructor stores the base URL it was
given. -/
structure OllamaClient where
  base_url : String
deriving DecidableEq, Repr

/-- `OllamaClient.__init__` with its default argument, whose value was fixed
at class-definition time to the original `OLLAMA_API_URL` constant. -/
def OllamaClient.init (base_url : String := OLLAMA_API_URL) : OllamaClient :=
  ⟨base_url⟩

/-- Module-level `ollama = OllamaClient()` (line 102): constructed at import
time, before `main()` runs, with the constant URL. -/
def ollama : OllamaClient := OllamaClient.init

/-- The module globals relevant to upstream addressing after startup: the
(reassignable) global `OLLAMA_API_URL` and the already-constructed module
client `ollama`. -/
structure ServerGlobals where
  ollama_api_url : String
  client : OllamaClient
deriving DecidableEq, Repr

/-- The state right after module import: global URL at its constant value,
client built from it. -/
def moduleInit : ServerGlobals :=
  { ollama_api_url := OLLAMA_API_URL, client := ollama }

/-- `main()`'s startup configuration step (lines 324-330): `global
OLLAMA_API_URL; OLLAMA_API_URL = args.ollama_url`.  The module client is not
touched. -/
def mainStartup (ollama_url : String) : ServerGlobals :=
  { moduleInit with ollama_api_url := ollama_url }

/-- The URL the streaming `/chat` path requests: `generate_stream` posts to
`self.base_url + "/api/generate"` (line 79) on the module client. -/
def streamRequestUrl (g : ServerGlobals) : String :=
  g.client.base_url ++ "/api/generate"

/-- The URL `/chat/simple` requests: `requests.post(f"{OLLAMA_API_URL}/api/generate", ...)`
(line 210) reads the global at request time. -/
def simpleRequestUrl (g : ServerGlobals) : String :=
  g.ollama_api_url ++ "/api/generate"

/-- Python `str.strip()` with no argument: drop whitespace from both ends
(ASCII whitespace; Python also strips some further Unicode spaces, which no
property here involves). -/
def pyStripStr (s : String) : String :=
  String.mk (((s.data.dropWhile Char.isWhitespace).reverse.dropWhile
    Char.isWhitespace).reverse)

/-- Python `value.strip()` as applied at lines 149/203: succeeds (trimming
whitespace) only on a string; on any other value the attribute lookup raises
`AttributeError`, modelled as the error case. -/
def pyStrip : JVal → Except String String
  | .jStr s => .ok (pyStripStr s)
  | _ => .error "AttributeError"

/-- Outcome of a chat handler's validation prologue (lines 144-153 of `chat`,
lines 198-207 of `chat_simple`): a 400 with the given error text, an uncaught
exception (escalated to Flask's 500 handler), or entry into the upstream-call
part with the stripped message and the (unvalidated) `model` value. -/
inductive ChatPhase
  | badRequest (msg : String)
  | internalError
  | proceed (message : String) (model : JVal)

/-- The validation prologue of `chat` (lines 144-153): `if not data` → 400
"No data provided"; `data.get('message', '').strip()` (raising on a
non-string); empty trimmed message → 400 "Message is required"; otherwise
proceed with `data.get('model', DEFAULT_MODEL)`. -/
def chatValidate (data : Option (List (String × JVal))) : ChatPhase :=
  match data with
  | none => .badRequest "No data provided"
  | some d =>
    if d.isEmpty then .badRequest "No data provided"
    else
      match pyStrip ((d.lookup "message").getD (.jStr "")) with
      | .error _ => .internalError
      | .ok m =>
        if m = "" then .badRequest "Message is required"
        else .proceed m ((d.lookup "model").getD (.jStr DEFAULT_MODEL))

/-- The identical validation prologue of `chat_simple` (lines 198-207). -/
def chatSimpleValidate (data : Option (List (String × JVal))) : ChatPhase :=
  match data with
  | none => .badRequest "No data provided"
  | some d =>
    if d.isEmpty then .badRequest "No data provided"
    else
      match pyStrip ((d.lookup "message").getD (.jStr "")) with
      | .error _ => .internalError
      | .ok m =>
        if m = "" then .badRequest "Message is required"
        else .proceed m ((d.lookup "model").getD (.jStr DEFAULT_MODEL))

/-- Number of upstream HTTP calls a handler issues in each phase: the
upstream request (`ollama.generate_stream` at line 170, `requests.post` at
line 209) sits only in the proceed branch, after both 400 checks. -/
def upstreamCalls : ChatPhase → Nat
  | .proceed _ _ => 1
  | _ => 0

/-- `jsonify({'error': msg})`. -/
def errBody (msg : String) : JVal := .jObj [("error", .jStr msg)]

/-- An HTTP response of the gateway: a JSON body with a status code, or a
`text/event-stream` response carrying the generator's chunks. -/
inductive HttpOut
  | resp (status : Nat) (body : JVal)
  | stream (chunks : List SSEChunk)

/-- The `errorhandler(500)` response `internal_error` (lines 240-244),
produced when an exception escapes a handler. -/
def internal_error : HttpOut := .resp 500 (errBody "Internal server error")

/-- The `/chat` handler `chat` (lines 139-192): validate, then answer with
the streaming response produced by `chat.generate` over the decoded upstream
sequence.  `lines`/`ne` describe the upstream transport as in
`generate_stream`; `ie` describes an exception, if any, that the iteration
raises past `generate_stream`'s own handlers. -/
def chat (data : Option (List (String × JVal))) (lines : List RawLine)
    (ne : NetEnd) (ie : IterEnd) : HttpOut :=
  match chatValidate data with
  | .badRequest m => .resp 400 (errBody m)
  | .internalError => internal_error
  | .proceed _ _ => .stream (chatGenerate (generate_stream lines ne) ie)

/-- Outcome of the blocking `requests.post` of `chat_simple` (lines 209-218):
a `ConnectionError`/`Timeout` (caught at line 222), another
`RequestException` raised by the post itself (caught at line 228), or an HTTP
response with its status, its body if it parses as JSON, and the message
`raise_for_status` would put in its `HTTPError`. -/
inductive SimpleResp
  | transportFail
  | reqFail (msg : String)
  | httpResp (status : Nat) (body : Option JVal) (errMsg : String)

/-- The `/chat/simple` handler `chat_simple` (lines 195-231): validate, then
post; `ConnectionError`/`Timeout` → 503; any `RequestException` (including
the `HTTPError` from `raise_for_status` on a 4xx/5xx status) → 500 with the
exception's message; otherwise `jsonify(response.json())` → 200 with the
upstream body (a body that fails to parse raises past the handler to the
500 errorhandler). -/
def chat_simple (data : Option (List (String × JVal))) (r : SimpleResp) : HttpOut :=
  match chatSimpleValidate data with
  | .badRequest m => .resp 400 (errBody m)
  | .internalError => internal_error
  | .proceed _ _ =>
    match r with
    | .transportFail => .resp 503 (errBody "Connection to Ollama failed. Is Ollama running?")
    | .reqFail m => .resp 500 (errBody m)
    | .httpResp st body emsg =>
      if 400 ≤ st ∧ st < 600 then .resp 500 (errBody emsg)
      else
        match body with
        | some j => .resp 200 j
        | none => internal_error

/-- Outcome of a `GET {base}/api/tags` probe as `check_health`/`list_models`
see it (lines 45-60): an HTTP response with its status and the parsed
`models` list of its body (each entry a JSON object, per the daemon's
schema; `.get('models', [])` defaults a missing key to the empty list), or a
raised `ConnectionError`/`Timeout`/`RequestException` — which, with
requests ≥ 2.27, includes the `JSONDecodeError` of an unparsable body. -/
inductive TagsOutcome
  | ok (status : Nat) (models : List (List (String × JVal)))
  | exn
deriving Repr

/-- `OllamaClient.check_health` (lines 45-51): true exactly when the probe
returned HTTP 200; every caught failure returns false.  Totality of this
function is the "never raises to the caller" guarantee. -/
def check_health : TagsOutcome → Bool
  | .ok st _ => st == 200
  | .exn => false

/-- `OllamaClient.list_models` (lines 53-60): the parsed model list on HTTP
200, the empty list on any other status or caught failure. -/
def list_models : TagsOutcome → List (List (String × JVal))
  | .ok st ms => if st == 200 then ms else []
  | .exn => []

/-- The `/health` handler `health_check` (lines 111-122): always answers
200 with a status body; `list_models` is only consulted when the health
probe succeeded (`ollama.list_models() if ollama_status else []`); each
model is projected to `m.get('name', 'unknown')`.  The two probes are two
separate HTTP calls, hence two outcomes. -/
def health_check (o₁ o₂ : TagsOutcome) : Nat × JVal :=
  let st := check_health o₁
  let models := if st then list_models o₂ else []
  (200, .jObj
    [("status", .jStr (if st then "healthy" else "degraded")),
     ("ollama_connected", .jBool st),
     ("models_available", .jNum models.length),
     ("models", .jArr (models.map fun m => (m.lookup "name").getD (.jStr "unknown")))])

/-- A chunk carrying a `response` payload. -/
def isRespChunk : SSEChunk → Bool
  | .respChunk _ => true
  | _ => false

/-- A terminal content chunk: a `done` or an `error` payload. -/
def isTermChunk : SSEChunk → Bool
  | .errChunk _ => true
  | .doneChunk _ _ _ _ => true
  | _ => false

/-- An upstream object that carries an `error` key or a truthy `done`. -/
def isTermObj (o : UpObj) : Bool := o.error.isSome || o.done

/-- A conforming upstream behavior, as §4.2 of the spec assumes the daemon
produces: a done- or error-bearing object occurs only as the last event of
the decoded sequence, and when the sequence ends in one, iteration ends
normally (nothing is left to raise). -/
def Conforming (events : List UpObj) (e : IterEnd) : Prop :=
  (∀ o ∈ events.dropLast, isTermObj o = false) ∧
  (∀ o ∈ events.getLast?.toList, isTermObj o = true → e = IterEnd.normal)

/-- The invalid inputs named by claim C5: absent/empty body, missing
`message`, or a `message` string that trims to empty. -/
def badChatInput (data : Option (List (String × JVal))) : Prop :=
  data = none ∨ data = some [] ∨
  (∃ d, data = some d ∧ (d.lookup "message" = none ∨
    ∃ s, d.lookup "message" = some (JVal.jStr s) ∧ pyStripStr s = ""))

theorem decodeLines_append (l₁ l₂ : List RawLine) :
    decodeLines (l₁ ++ l₂) = decodeLines l₁ ++ decodeLines l₂ := by
  induction l₁ with
  | nil => rfl
  | cons hd tl ih => cases hd <;> simp [decodeLines, ih]

theorem chatSimpleValidate_eq (data : Option (List (String × JVal))) :
    chatSimpleValidate data = chatValidate data := rfl

theorem sentinel_not_mem_chatBody (events : List UpObj) (e : IterEnd) :
    SSEChunk.sentinel ∉ chatBody events e := by
  induction events with
  | nil =>
    cases e <;> simp [chatBody, endPart]
  | cons o rest ih =>
    intro hmem
    rw [chatBody] at hmem
    cases ho : o.error with
    | some m => rw [ho] at hmem; simp at hmem
    | none =>
      rw [ho] at hmem
      simp only [List.mem_append] at hmem
      rcases hmem with (h | h) | h
      · rw [respPart] at h
        cases hr : o.response <;> rw [hr] at h <;> simp at h
      · rw [donePart] at h
        by_cases hd : o.done <;> simp [hd] at h
      · exact ih h

theorem render_eq_sentinel (c : SSEChunk)
    (h : SSEChunk.render c = "data: [DONE]\n\n") : c = SSEChunk.sentinel := by
  have h6 : (SSEChunk.render c).data[6]? = ("data: [DONE]\n\n").data[6]? := by rw [h]
  cases c with
  | sentinel => rfl
  | errChunk m =>
    exfalso
    rw [SSEChunk.render] at h6
    simp only [String.data_append, List.append_assoc] at h6
    rw [List.getElem?_append_left (by decide)] at h6
    exact absurd h6 (by decide)
  | respChunk t =>
    exfalso
    rw [SSEChunk.render] at h6
    simp only [String.data_append, List.append_assoc] at h6
    rw [List.getElem?_append_left (by decide)] at h6
    exact absurd h6 (by decide)
  | doneChunk td ld pec ec =>
    exfalso
    rw [SSEChunk.render] at h6
    simp only [String.data_append, List.append_assoc] at h6
    rw [List.getElem?_append_left (by decide)] at h6
    exact absurd h6 (by decide)

theorem conforming_tail {o : UpObj} {rest : List UpObj} {e : IterEnd}
    (h : Conforming (o :: rest) e) : Conforming rest e := by
  obtain ⟨h1, h2⟩ := h
  cases rest with
  | nil => exact ⟨by simp, by simp⟩
  | cons b l =>
    refine ⟨fun o' ho' => h1 o' ?_, fun o' ho' => h2 o' ?_⟩
    · rw [show (o :: b :: l).dropLast = o :: (b :: l).dropLast from by simp [List.dropLast]]
      exact List.mem_cons_of_mem _ ho'
    · rw [List.getLast?_cons_cons]
      exact ho'

theorem chatBody_shape (events : List UpObj) (e : IterEnd) (h : Conforming events e) :
    ∃ rs topt, (∀ c ∈ rs, isRespChunk c = true) ∧ (∀ c ∈ topt, isTermChunk c = true) ∧
      topt.length ≤ 1 ∧ chatBody events e = rs ++ topt ∧
      (topt = [] ↔ e = IterEnd.normal ∧ ∀ o ∈ events, isTermObj o = false) := by
  induction events with
  | nil =>
    cases e with
    | normal => exact ⟨[], [], by simp, by simp, by simp, rfl, by simp⟩
    | raise m =>
      refine ⟨[], [SSEChunk.errChunk m], by simp, ?_, by simp, rfl, by simp⟩
      intro c hc
      simp at hc
      subst hc
      rfl
  | cons o rest ih =>
    cases ho : o.error with
    | some m =>
      refine ⟨[], [SSEChunk.errChunk m], by simp, ?_, by simp, ?_, ?_⟩
      · intro c hc
        simp at hc
        subst hc
        rfl
      · simp [chatBody, ho]
      · constructor
        · intro hcontra
          simp at hcontra
        · rintro ⟨-, hall⟩
          have := hall o (List.mem_cons_self _ _)
          rw [isTermObj, ho] at this
          simp at this
    | none =>
      cases hd : o.done with
      | true =>
        have hrest : rest = [] := by
          cases rest with
          | nil => rfl
          | cons b l =>
            exfalso
            have hmem : o ∈ (o :: b :: l).dropLast := by
              rw [show (o :: b :: l).dropLast = o :: (b :: l).dropLast from by
                simp [List.dropLast]]
              exact List.mem_cons_self _ _
            have := h.1 o hmem
            rw [isTermObj, ho, hd] at this
            simp at this
        subst hrest
        have he : e = IterEnd.normal := by
          have hmem : o ∈ ([o] : List UpObj).getLast?.toList := by
            simp [List.getLast?]
          refine h.2 o hmem ?_
          rw [isTermObj, ho, hd]
          simp
        subst he
        refine ⟨respPart o, donePart o, ?_, ?_, ?_, ?_, ?_⟩
        · intro c hc
          rw [respPart] at hc
          cases hr : o.response <;> rw [hr] at hc <;> simp at hc
          subst hc
          rfl
        · intro c hc
          rw [donePart, hd] at hc
          simp at hc
          subst hc
          rfl
        · rw [donePart, hd]
          simp
        · simp [chatBody, ho, endPart]
        · constructor
          · intro hcontra
            rw [donePart, hd] at hcontra
            simp at hcontra
          · rintro ⟨-, hall⟩
            have := hall o (List.mem_cons_self _ _)
            rw [isTermObj, ho, hd] at this
            simp at this
      | false =>
        obtain ⟨rs, topt, h1, h2, h3, h4, h5⟩ := ih (conforming_tail h)
        refine ⟨respPart o ++ rs, topt, ?_, h2, h3, ?_, ?_⟩
        · intro c hc
          rcases List.mem_append.mp hc with hcm | hcm
          · rw [respPart] at hcm
            cases hr : o.response <;> rw [hr] at hcm <;> simp at hcm
            subst hcm
            rfl
          · exact h1 c hcm
        · simp only [chatBody, ho]
          rw [donePart, hd, h4]
          simp
        · rw [h5]
          simp [List.forall_mem_cons, isTermObj, ho, hd]

/-- C1: for every `/chat` session that enters streaming (the response
generator `chat.generate` is started), over every upstream event sequence
and every iteration outcome — normal completion, an upstream error event, or
an exception raised while iterating — exactly one closing sentinel chunk
`data: [DONE]\n\n` is written and it is the last thing written to the
client. -/
theorem c1_sentinel_exactly_once_and_last (events : List UpObj) (e : IterEnd) :
    (((chatGenerate events e).map SSEChunk.render).getLast? = some "data: [DONE]\n\n") ∧
    (((chatGenerate events e).map SSEChunk.render).count "data: [DONE]\n\n" = 1) := by
  constructor
  · rw [chatGenerate, List.map_append]
    rw [show List.map SSEChunk.render [SSEChunk.sentinel] = ["data: [DONE]\n\n"] from rfl]
    exact List.getLast?_concat _
  · rw [chatGenerate, List.map_append, List.count_append]
    have h0 : ((chatBody events e).map SSEChunk.render).count "data: [DONE]\n\n" = 0 := by
      rw [List.count_eq_zero]
      intro hmem
      rcases List.mem_map.mp hmem with ⟨c, hc, hrc⟩
      have hcs := render_eq_sentinel c hrc
      subst hcs
      exact sentinel_not_mem_chatBody events e hc
    rw [h0]
    rfl

/-- C2 counterexample: a valid non-empty message whose upstream line sequence
ends without ever producing a done or error event (here: the upstream body
ends immediately).  The stream is just the `[DONE]` sentinel — it contains
zero terminal chunks, not exactly one as the claim requires. -/
theorem c2_counterexample :
    chat (some [("message", JVal.jStr "hi")]) [] NetEnd.normal IterEnd.normal
      = HttpOut.stream [SSEChunk.sentinel] ∧
    ¬ ∃ rs t, (∀ c ∈ rs, isRespChunk c = true) ∧ isTermChunk t = true ∧
        [SSEChunk.sentinel] = rs ++ [t, SSEChunk.sentinel] := by
  constructor
  · rfl
  · rintro ⟨rs, t, -, -, heq⟩
    have hlen := congrArg List.length heq
    simp at hlen

/-- C2 (amended): for every valid request with a non-empty trimmed message,
and for upstream behavior in which a done- or error-bearing line occurs only
as the last decoded line (as a conforming daemon produces), the `/chat` SSE
output consists of zero or more `response` chunks, then at most one terminal
chunk — a `done` or `error` chunk — then exactly one `[DONE]` sentinel, in
that order.  Contrary to the original claim, the terminal chunk count is zero
(not one) exactly when iteration ends normally and the upstream line
sequence ends without producing a done or error event. -/
theorem c2_stream_shape_amended (data : Option (List (String × JVal)))
    (lines : List RawLine) (ne : NetEnd) (ie : IterEnd)
    (hv : ∃ m mv, chatValidate data = ChatPhase.proceed m mv)
    (hc : Conforming (generate_stream lines ne) ie) :
    ∃ rs topt, (∀ c ∈ rs, isRespChunk c = true) ∧ (∀ c ∈ topt, isTermChunk c = true) ∧
      topt.length ≤ 1 ∧
      chat data lines ne ie = HttpOut.stream (rs ++ (topt ++ [SSEChunk.sentinel])) ∧
      (topt = [] ↔ ie = IterEnd.normal ∧
        ∀ o ∈ generate_stream lines ne, isTermObj o = false) := by
  obtain ⟨m, mv, hval⟩ := hv
  obtain ⟨rs, topt, h1, h2, h3, h4, h5⟩ := chatBody_shape (generate_stream lines ne) ie hc
  refine ⟨rs, topt, h1, h2, h3, ?_, h5⟩
  rw [chat, hval, chatGenerate, h4, List.append_assoc]

/-- Witness for C2 (amended) at a concrete conforming stream: two response
lines, the second also carrying `done = true`, ending normally. -/
theorem c2_stream_shape_amended_witness :
    ∃ rs topt, (∀ c ∈ rs, isRespChunk c = true) ∧ (∀ c ∈ topt, isTermChunk c = true) ∧
      topt.length ≤ 1 ∧
      chat (some [("message", JVal.jStr "hi")])
          [RawLine.ok { response := some "a" },
           RawLine.ok { response := some "b", done := true }]
          NetEnd.normal IterEnd.normal
        = HttpOut.stream (rs ++ (topt ++ [SSEChunk.sentinel])) ∧
      (topt = [] ↔ IterEnd.normal = IterEnd.normal ∧
        ∀ o ∈ generate_stream
            [RawLine.ok { response := some "a" },
             RawLine.ok { response := some "b", done := true }] NetEnd.normal,
          isTermObj o = false) :=
  c2_stream_shape_amended (some [("message", JVal.jStr "hi")])
    [RawLine.ok { response := some "a" },
     RawLine.ok { response := some "b", done := true }]
    NetEnd.normal IterEnd.normal ⟨"hi", JVal.jStr DEFAULT_MODEL, rfl⟩
    ⟨by decide, fun o _ _ => rfl⟩

/-- C3 counterexample: two upstream lines, the first decoding to an object
with `done = true`.  `generate_stream` still yields the second event: a done
event is not the last event of the decoded sequence. -/
theorem c3_counterexample :
    generate_stream
        [RawLine.ok { done := true }, RawLine.ok { response := some "x" }]
        NetEnd.normal
      = [{ done := true }, ({ response := some "x" } : UpObj)] ∧
    isTermObj { done := true } = true ∧
    ([{ done := true }, ({ response := some "x" } : UpObj)] : List UpObj).length = 2 := by
  refine ⟨rfl, rfl, rfl⟩

/-- C3 (amended): a parsed line carrying `done = true` or an `error` field
does not terminate decoding — `generate_stream` yields an event for every
later well-formed non-blank line as well; only a transport failure ends the
sequence with a synthesized error event, which is then the last event
yielded. -/
theorem c3_decoder_no_early_stop_amended (pre post : List RawLine) (o : UpObj)
    (e : NetEnd) (_hterm : isTermObj o = true) :
    generate_stream (pre ++ RawLine.ok o :: post) e
      = decodeLines pre ++ o :: (decodeLines post ++ netEndEvents e) ∧
    (e ≠ NetEnd.normal → ∃ msg,
      (generate_stream (pre ++ RawLine.ok o :: post) e).getLast?
        = some { error := some msg }) := by
  constructor
  · rw [generate_stream, decodeLines_append]
    simp [decodeLines]
  · intro hne
    cases e with
    | normal => exact absurd rfl hne
    | connErr =>
      exact ⟨"Connection to Ollama failed. Is Ollama running?",
        List.getLast?_concat _⟩
    | reqErr m =>
      exact ⟨"Request failed: " ++ m, List.getLast?_concat _⟩

/-- Witness for C3 (amended): a done line followed by a response line, on a
transport that fails mid-stream. -/
theorem c3_decoder_no_early_stop_amended_witness :
    (generate_stream ([] ++ RawLine.ok { done := true } :: [RawLine.ok { response := some "x" }])
        NetEnd.connErr
      = decodeLines [] ++ ({ done := true } : UpObj)
          :: (decodeLines [RawLine.ok { response := some "x" }] ++ netEndEvents NetEnd.connErr)) ∧
    (NetEnd.connErr ≠ NetEnd.normal → ∃ msg,
      (generate_stream ([] ++ RawLine.ok { done := true } :: [RawLine.ok { response := some "x" }])
          NetEnd.connErr).getLast?
        = some { error := some msg }) :=
  c3_decoder_no_early_stop_amended [] [RawLine.ok { response := some "x" }]
    { done := true } NetEnd.connErr (by decide)

/-- C4 (code-bug evidence): with the startup override
`--ollama-url http://10.0.0.9:11434`, the module client that the streaming
`/chat` path (and `/health`, `/models`) uses still targets the default base
URL, because `main()` reassigns the global only after the client was
constructed at import time; `/chat/simple`, reading the global per request,
follows the override.  The resolved URL and the streaming client's URL
differ. -/
theorem c4_streaming_client_ignores_override :
    streamRequestUrl (mainStartup "http://10.0.0.9:11434")
      = "http://localhost:11434/api/generate" ∧
    simpleRequestUrl (mainStartup "http://10.0.0.9:11434")
      = "http://10.0.0.9:11434/api/generate" ∧
    (mainStartup "http://10.0.0.9:11434").client.base_url
      ≠ (mainStartup "http://10.0.0.9:11434").ollama_api_url := by
  exact ⟨by decide, by decide, by decide⟩

/-- C5: every request to `/chat` or `/chat/simple` whose body is
absent/empty, or whose `message` field is missing or is a string trimming to
the empty string, gets a 400 response with a structured error body, and the
upstream client is never invoked (the upstream call sits only in the branch
validation never reaches). -/
theorem c5_bad_input_400_no_upstream_call (data : Option (List (String × JVal)))
    (lines : List RawLine) (ne : NetEnd) (ie : IterEnd) (r : SimpleResp)
    (h : badChatInput data) :
    ∃ m, chat data lines ne ie = HttpOut.resp 400 (errBody m) ∧
      chat_simple data r = HttpOut.resp 400 (errBody m) ∧
      upstreamCalls (chatValidate data) = 0 ∧
      upstreamCalls (chatSimpleValidate data) = 0 := by
  have hval : ∃ m, chatValidate data = ChatPhase.badRequest m := by
    rcases h with h | h | ⟨d, hd, hmsg⟩
    · subst h
      exact ⟨"No data provided", rfl⟩
    · subst h
      exact ⟨"No data provided", rfl⟩
    · subst hd
      by_cases he : d.isEmpty = true
      · exact ⟨"No data provided", by simp [chatValidate, he]⟩
      · rcases hmsg with hnone | ⟨s, hs, htrim⟩
        · exact ⟨"Message is required", by
            simp [chatValidate, he, hnone, pyStrip, pyStripStr]⟩
        · exact ⟨"Message is required", by
            simp [chatValidate, he, hs, pyStrip, htrim]⟩
  obtain ⟨m, hm⟩ := hval
  have hm' : chatSimpleValidate data = ChatPhase.badRequest m := by
    rw [chatSimpleValidate_eq, hm]
  refine ⟨m, by rw [chat, hm], ?_, by rw [hm]; rfl, by rw [hm']; rfl⟩
  rw [chat_simple.eq_def, hm']

/-- Witness for C5: a body whose `message` field is missing. -/
theorem c5_bad_input_400_no_upstream_call_witness :
    ∃ m, chat (some [("model", JVal.jStr "x")]) [] NetEnd.normal IterEnd.normal
        = HttpOut.resp 400 (errBody m) ∧
      chat_simple (some [("model", JVal.jStr "x")]) SimpleResp.transportFail
        = HttpOut.resp 400 (errBody m) ∧
      upstreamCalls (chatValidate (some [("model", JVal.jStr "x")])) = 0 ∧
      upstreamCalls (chatSimpleValidate (some [("model", JVal.jStr "x")])) = 0 :=
  c5_bad_input_400_no_upstream_call (some [("model", JVal.jStr "x")]) [] NetEnd.normal
    IterEnd.normal SimpleResp.transportFail
    (Or.inr (Or.inr ⟨[("model", JVal.jStr "x")], rfl, Or.inl rfl⟩))

/-- C6: the stream decoder skips blank lines and skips malformed-JSON lines
anywhere in the sequence without raising or terminating; in particular one
malformed line between two decodable lines each carrying a `response` field
decodes to exactly two response-bearing (Fragment) events. -/
theorem c6_decoder_skips_noise (o₁ o₂ : UpObj) (t₁ t₂ : String)
    (h₁ : o₁.response = some t₁) (h₂ : o₂.response = some t₂) :
    (∀ l₁ l₂ : List RawLine,
      decodeLines (l₁ ++ RawLine.bad :: l₂) = decodeLines (l₁ ++ l₂)) ∧
    (∀ l₁ l₂ : List RawLine,
      decodeLines (l₁ ++ RawLine.blank :: l₂) = decodeLines (l₁ ++ l₂)) ∧
    decodeLines [RawLine.ok o₁, RawLine.bad, RawLine.ok o₂] = [o₁, o₂] ∧
    (decodeLines [RawLine.ok o₁, RawLine.bad, RawLine.ok o₂]).countP
      (fun o => o.response.isSome) = 2 := by
  refine ⟨?_, ?_, rfl, ?_⟩
  · intro l₁ l₂
    rw [decodeLines_append, decodeLines_append]
    rfl
  · intro l₁ l₂
    rw [decodeLines_append, decodeLines_append]
    rfl
  · simp [decodeLines, List.countP_cons, h₁, h₂]

/-- Witness for C6 at two concrete response lines. -/
theorem c6_decoder_skips_noise_witness :
    (∀ l₁ l₂ : List RawLine,
      decodeLines (l₁ ++ RawLine.bad :: l₂) = decodeLines (l₁ ++ l₂)) ∧
    (∀ l₁ l₂ : List RawLine,
      decodeLines (l₁ ++ RawLine.blank :: l₂) = decodeLines (l₁ ++ l₂)) ∧
    decodeLines [RawLine.ok { response := some "a" }, RawLine.bad,
        RawLine.ok { response := some "b" }]
      = [{ response := some "a" }, { response := some "b" }] ∧
    (decodeLines [RawLine.ok { response := some "a" }, RawLine.bad,
        RawLine.ok { response := some "b" }]).countP
      (fun o => o.response.isSome) = 2 :=
  c6_decoder_skips_noise { response := some "a" } { response := some "b" } "a" "b" rfl rfl

/-- C7: for every valid request, `/chat/simple` answers 503 on a connection
failure or timeout, 500 carrying the failure's message for any other request
failure (a non-HTTP `RequestException`, or the `HTTPError` raised by
`raise_for_status` on a 4xx/5xx status), and 200 with the upstream JSON body
verbatim on success; the two failure classes always carry distinct statuses. -/
theorem c7_simple_error_classes (data : Option (List (String × JVal)))
    (hv : ∃ m mv, chatSimpleValidate data = ChatPhase.proceed m mv) :
    chat_simple data SimpleResp.transportFail
      = HttpOut.resp 503 (errBody "Connection to Ollama failed. Is Ollama running?") ∧
    (∀ msg, chat_simple data (SimpleResp.reqFail msg)
      = HttpOut.resp 500 (errBody msg)) ∧
    (∀ st body emsg, 400 ≤ st → st < 600 →
      chat_simple data (SimpleResp.httpResp st body emsg)
        = HttpOut.resp 500 (errBody emsg)) ∧
    (∀ st j emsg, st < 400 →
      chat_simple data (SimpleResp.httpResp st (some j) emsg)
        = HttpOut.resp 200 j) := by
  obtain ⟨m, mv, hval⟩ := hv
  refine ⟨by rw [chat_simple.eq_def, hval], fun msg => by rw [chat_simple.eq_def, hval],
    ?_, ?_⟩
  · intro st body emsg h1 h2
    simp only [chat_simple.eq_def, hval]
    rw [if_pos ⟨h1, h2⟩]
  · intro st j emsg h1
    simp only [chat_simple.eq_def, hval]
    rw [if_neg (by omega)]

/-- Witness for C7 at a concrete valid request, exercising all four
outcomes. -/
theorem c7_simple_error_classes_witness :
    chat_simple (some [("message", JVal.jStr "hi")]) SimpleResp.transportFail
      = HttpOut.resp 503 (errBody "Connection to Ollama failed. Is Ollama running?") ∧
    chat_simple (some [("message", JVal.jStr "hi")]) (SimpleResp.reqFail "boom")
      = HttpOut.resp 500 (errBody "boom") ∧
    chat_simple (some [("message", JVal.jStr "hi")])
        (SimpleResp.httpResp 404 none "404 Client Error")
      = HttpOut.resp 500 (errBody "404 Client Error") ∧
    chat_simple (some [("message", JVal.jStr "hi")])
        (SimpleResp.httpResp 200 (some (JVal.jObj [("response", JVal.jStr "ok")])) "")
      = HttpOut.resp 200 (JVal.jObj [("response", JVal.jStr "ok")]) := by
  have h := c7_simple_error_classes (some [("message", JVal.jStr "hi")])
    ⟨"hi", JVal.jStr DEFAULT_MODEL, rfl⟩
  exact ⟨h.1, h.2.1 "boom", h.2.2.1 404 none "404 Client Error" (by omega) (by omega),
    h.2.2.2 200 (JVal.jObj [("response", JVal.jStr "ok")]) "" (by omega)⟩

/-- C8: `/health` always answers HTTP 200 whatever the upstream state; the
health probe returns true exactly on an HTTP 200 reply and is total (every
caught failure becomes `false`); when the probe fails the body reports
status `degraded`, `ollama_connected` false and `models_available` 0. -/
theorem c8_health_always_200 (o₁ o₂ : TagsOutcome) :
    (health_check o₁ o₂).1 = 200 ∧
    (check_health o₁ = true ↔ ∃ ms, o₁ = TagsOutcome.ok 200 ms) ∧
    (check_health o₁ = false →
      (health_check o₁ o₂).2 = JVal.jObj
        [("status", JVal.jStr "degraded"), ("ollama_connected", JVal.jBool false),
         ("models_available", JVal.jNum 0), ("models", JVal.jArr [])]) := by
  refine ⟨rfl, ?_, ?_⟩
  · constructor
    · intro htrue
      cases o₁ with
      | ok st ms =>
        have hst : st = 200 := by simpa [check_health] using htrue
        subst hst
        exact ⟨ms, rfl⟩
      | exn => simp [check_health] at htrue
    · rintro ⟨ms, rfl⟩
      rfl
  · intro hfalse
    simp [health_check, hfalse]

/-- Witness for C8 with an unreachable upstream. -/
theorem c8_health_always_200_witness :
    (health_check TagsOutcome.exn (TagsOutcome.ok 200 [])).2 = JVal.jObj
      [("status", JVal.jStr "degraded"), ("ollama_connected", JVal.jBool false),
       ("models_available", JVal.jNum 0), ("models", JVal.jArr [])] :=
  (c8_health_always_200 TagsOutcome.exn (TagsOutcome.ok 200 [])).2.2 rfl

/-- C9: one decoded upstream event carrying both a `response` field and
`done = true` (and no `error`) produces two outbound SSE chunks, in order: a
response chunk with the text, then a done chunk with the stats — the two
framings are not mutually exclusive per event. -/
theorem c9_response_then_done_same_event (o : UpObj) (rest : List UpObj)
    (e : IterEnd) (t : String) (h₁ : o.error = none) (h₂ : o.response = some t)
    (h₃ : o.done = true) :
    chatGenerate (o :: rest) e
      = SSEChunk.respChunk t
        :: SSEChunk.doneChunk (o.total_duration.getD 0) (o.load_duration.getD 0)
            (o.prompt_eval_count.getD 0) (o.eval_count.getD 0)
        :: chatGenerate rest e := by
  simp [chatGenerate, chatBody, h₁, h₂, h₃, respPart, donePart]

/-- Witness for C9 at a concrete event carrying both fields. -/
theorem c9_response_then_done_same_event_witness :
    chatGenerate [{ response := some "fin", done := true, eval_count := some 7 }]
        IterEnd.normal
      = SSEChunk.respChunk "fin" :: SSEChunk.doneChunk 0 0 0 7
        :: chatGenerate [] IterEnd.normal :=
  c9_response_then_done_same_event
    { response := some "fin", done := true, eval_count := some 7 } [] IterEnd.normal
    "fin" rfl rfl rfl

/-- C10: the 400 validation branch of `/chat` and `/chat/simple` is reached
only when the body is absent/empty or `message` is missing or is a string
trimming to empty; a parsable body whose `message` holds a non-string (here
the number 42) instead makes `.strip()` raise an uncaught `AttributeError`,
so the request yields the generic 500 internal error, not a 400. -/
theorem c10_validation_not_total :
    (∀ (data : Option (List (String × JVal))) (m : String),
      chatValidate data = ChatPhase.badRequest m →
      data = none ∨ data = some [] ∨
      (∃ d, data = some d ∧ (d.lookup "message" = none ∨
        ∃ s, d.lookup "message" = some (JVal.jStr s) ∧ pyStripStr s = ""))) ∧
    chat (some [("message", JVal.jNum 42)]) [] NetEnd.normal IterEnd.normal
      = HttpOut.resp 500 (errBody "Internal server error") ∧
    chat_simple (some [("message", JVal.jNum 42)]) SimpleResp.transportFail
      = HttpOut.resp 500 (errBody "Internal server error") := by
  refine ⟨?_, rfl, rfl⟩
  intro data m h
  cases data with
  | none => exact Or.inl rfl
  | some d =>
    by_cases he : d.isEmpty = true
    · cases d with
      | nil => exact Or.inr (Or.inl rfl)
      | cons a l => simp at he
    · right
      right
      refine ⟨d, rfl, ?_⟩
      cases hl : d.lookup "message" with
      | none => exact Or.inl rfl
      | some v =>
        cases v with
        | jStr s =>
          right
          refine ⟨s, rfl, ?_⟩
          by_cases hts : pyStripStr s = ""
          · exact hts
          · exfalso
            simp [chatValidate, he, hl, pyStrip, hts] at h
        | jNull =>
          exfalso
          simp [chatValidate, he, hl, pyStrip] at h
        | jBool b =>
          exfalso
          simp [chatValidate, he, hl, pyStrip] at h
        | jNum n =>
          exfalso
          simp [chatValidate, he, hl, pyStrip] at h
        | jArr xs =>
          exfalso
          simp [chatValidate, he, hl, pyStrip] at h
        | jObj fs =>
          exfalso
          simp [chatValidate, he, hl, pyStrip] at h

/-- Witness for C10's universal part at a blank-string message. -/
theorem c10_validation_not_total_witness :
    (some [("message", JVal.jStr " ")] : Option (List (String × JVal))) = none ∨
    (some [("message", JVal.jStr " ")] : Option (List (String × JVal))) = some [] ∨
    (∃ d, (some [("message", JVal.jStr " ")] : Option (List (String × JVal))) = some d ∧
      (d.lookup "message" = none ∨
        ∃ s, d.lookup "message" = some (JVal.jStr s) ∧ pyStripStr s = "")) :=
  c10_validation_not_total.1 (some [("message", JVal.jStr " ")]) "Message is required" rfl
